import Mathlib

/-!
Shallow embedding of the drtrips-googlemaps-mcp server (TypeScript sources:
src/server.ts, src/models/maps-models.ts, src/services/google-places-api.ts,
src/config/settings.ts) and proofs about its specification claims.

Modelling conventions:
- JavaScript strings are Lean `String`; numeric payloads that every claim
  treats opaquely (coordinates, distance/duration values) are `Int`.
- `undefined` / absent fields are `Option`; JS truthiness on optional
  strings is made explicit (`jsTruthy`).
- Fallible upstream HTTP interaction is an explicit `HttpResult` value:
  a resolved response (status + body), an axios error (optional HTTP
  status, optional error code, message), or another thrown error.
- Client operations return `Sum success ErrorResponse`, mirroring the
  TypeScript `T | ErrorResponse` return types; they are total because the
  source wraps every path in try/catch.
-/

namespace GoogleMapsMcp

/-- JS truthiness of an optional string: `undefined` and `""` are falsy. -/
def jsTruthy : Option String → Bool
  | none => false
  | some s => !s.isEmpty

/-- JS `a || b` on optional strings: `a` when truthy, else `b`. -/
def jsOr (a b : Option String) : Option String :=
  if jsTruthy a then a else b

/-- Renders an optional HTTP status the way a JS template literal renders
`undefined`. -/
def optStatusStr : Option Nat → String
  | some n => toString n
  | none => "undefined"

/-- Output format enum from maps-models.ts (`ResponseFormat`). -/
inductive ResponseFormat where
  | markdown
  | json
deriving DecidableEq, Repr

/-- Response type `GeocodeResult` from maps-models.ts. -/
structure GeocodeResult where
  place_id : String
  address : String
  latitude : Int
  longitude : Int
deriving DecidableEq, Repr

/-- Response type `Location` from maps-models.ts. -/
structure Location where
  latitude : Int
  longitude : Int
deriving DecidableEq, Repr

/-- Response type `DisplayName` from maps-models.ts. -/
structure DisplayName where
  text : String
deriving DecidableEq, Repr

/-- Response type `GoogleMapsLinks` from maps-models.ts (both fields
optional). -/
structure GoogleMapsLinks where
  mapsUri : Option String := none
  directionsUri : Option String := none
deriving DecidableEq, Repr

/-- Response type `PlaceDetails` from maps-models.ts. -/
structure PlaceDetails where
  id : String
  displayName : Option String
  formattedAddress : String
  location : Location
  types : List String
  googleMapsLinks : GoogleMapsLinks
deriving DecidableEq, Repr

/-- Response wrapper `PlaceDetailsResponse` from maps-models.ts. -/
structure PlaceDetailsResponse where
  place_details : PlaceDetails
deriving DecidableEq, Repr

/-- Response type `ErrorResponse` from maps-models.ts. -/
structure ErrorResponse where
  error : String
deriving DecidableEq, Repr

/-- A `text`/`value` pair as used by distance and duration fields. -/
structure TextValue where
  text : String
  value : Int
deriving DecidableEq, Repr

/-- Response type `DistanceMatrixElement` from maps-models.ts. -/
structure DistanceMatrixElement where
  status : String
  distance : Option TextValue := none
  duration : Option TextValue := none
  duration_in_traffic : Option TextValue := none
deriving DecidableEq, Repr

/-- Response type `DistanceMatrixRow` from maps-models.ts. -/
structure DistanceMatrixRow where
  elements : List DistanceMatrixElement
deriving DecidableEq, Repr

/-- Response type `DistanceMatrixResponse` from maps-models.ts. -/
structure DistanceMatrixResponse where
  origin_addresses : List String
  destination_addresses : List String
  rows : List DistanceMatrixRow
deriving DecidableEq, Repr

/-! ## Upstream HTTP layer

Bodies as the client functions in google-places-api.ts read them from
`response.data`, with `Option` for fields the code defends against being
absent. -/

/-- One entry of the geocoding endpoint `results[]` array. -/
structure GeocodeUpstreamResult where
  place_id : String
  formatted_address : String
  lat : Int
  lng : Int
deriving DecidableEq, Repr

/-- Body of a geocoding response: `status` plus optional `results[]`. -/
structure GeocodeBody where
  status : String
  results : Option (List GeocodeUpstreamResult) := none
deriving DecidableEq, Repr

/-- Body of a place-details (by id) response from the Places API (New). -/
structure PlaceBody where
  id : String
  displayName : Option DisplayName := none
  formattedAddress : String
  location : Location
  types : Option (List String) := none
  googleMapsLinks : Option GoogleMapsLinks := none
deriving DecidableEq, Repr

/-- Body of a text-search response: optional `places[]`. -/
structure SearchBody where
  places : Option (List PlaceBody) := none
deriving DecidableEq, Repr

/-- Body of a distance-matrix response. -/
structure DistanceBody where
  status : String
  origin_addresses : Option (List String) := none
  destination_addresses : Option (List String) := none
  rows : Option (List DistanceMatrixRow) := none
deriving DecidableEq, Repr

/-- Outcome of one axios call as observed by the try/catch in each client
method: a resolved response, an `AxiosError` (optional HTTP status,
optional error code such as `ECONNABORTED`, a message), or some other
thrown `Error` whose computed message is carried. -/
inductive HttpResult (β : Type) where
  | response (status : Nat) (body : β)
  | axiosErr (status : Option Nat) (code : Option String) (message : String)
  | otherErr (message : String)
deriving DecidableEq, Repr

/-! ## Upstream client (google-places-api.ts) -/

/-- Maps one upstream geocoding entry as in `geocodeAddress`
(google-places-api.ts lines 128-133). -/
def mapGeocodeResult (r : GeocodeUpstreamResult) : GeocodeResult :=
  { place_id := r.place_id
    address := r.formatted_address
    latitude := r.lat
    longitude := r.lng }

/-- `geocodeAddress` from google-places-api.ts: slices the first 3 results
on status OK, returns an empty success list on ZERO_RESULTS, and converts
every other status, non-200 HTTP, and thrown error into an
`ErrorResponse`. -/
def geocodeAddress : HttpResult GeocodeBody → Sum (List GeocodeResult) ErrorResponse
  | .response status body =>
    if status = 200 then
      if body.status = "OK" ∧ body.results.isSome then
        .inl (((body.results.getD []).take 3).map mapGeocodeResult)
      else if body.status = "ZERO_RESULTS" then
        .inl []
      else
        .inr ⟨"Geocoding failed with status: " ++ body.status⟩
    else
      .inr ⟨"Geocoding request failed: " ++ toString status⟩
  | .axiosErr status _ message =>
      .inr ⟨"Geocoding API error: " ++ optStatusStr status ++ " - " ++ message⟩
  | .otherErr message => .inr ⟨message⟩

/-- Maps a 200 place body to `PlaceDetails` as both `getPlaceDetailsById`
and `searchAndGetPlaceDetails` do: `displayName?.text || null`,
`types || []`, `googleMapsLinks || {}`. -/
def mapPlaceBody (data : PlaceBody) : PlaceDetails :=
  { id := data.id
    displayName :=
      match data.displayName with
      | some dn => if dn.text.isEmpty then none else some dn.text
      | none => none
    formattedAddress := data.formattedAddress
    location := data.location
    types := data.types.getD []
    googleMapsLinks := data.googleMapsLinks.getD {} }

/-- `getPlaceDetailsById` from google-places-api.ts: a 200 response always
yields success with defaulted optional fields; every other outcome is an
`ErrorResponse`. -/
def getPlaceDetailsById : HttpResult PlaceBody → Sum PlaceDetailsResponse ErrorResponse
  | .response status body =>
    if status = 200 then
      .inl ⟨mapPlaceBody body⟩
    else
      .inr ⟨"Place details request failed: " ++ toString status⟩
  | .axiosErr status _ message =>
      .inr ⟨"Place details API error: " ++ optStatusStr status ++ " - " ++ message⟩
  | .otherErr message => .inr ⟨message⟩

/-- `searchAndGetPlaceDetails` from google-places-api.ts: on 200 maps the
first entry of `places[]` like `getPlaceDetailsById`, and reports a
distinct failure when the list is empty. -/
def searchAndGetPlaceDetails : HttpResult SearchBody → Sum PlaceDetailsResponse ErrorResponse
  | .response status body =>
    if status = 200 then
      match body.places.getD [] with
      | place :: _ => .inl ⟨mapPlaceBody place⟩
      | [] => .inr ⟨"No places found for the given query"⟩
    else
      .inr ⟨"Place search request failed: " ++ toString status⟩
  | .axiosErr status _ message =>
      .inr ⟨"Place search API error: " ++ optStatusStr status ++ " - " ++ message⟩
  | .otherErr message => .inr ⟨message⟩

/-- `calculateDistanceMatrix` from google-places-api.ts: on status OK
passes the three arrays through unchanged (defaulting absent ones to
`[]`); every other status and every error becomes an `ErrorResponse`. -/
def calculateDistanceMatrix : HttpResult DistanceBody → Sum DistanceMatrixResponse ErrorResponse
  | .response status body =>
    if status = 200 then
      if body.status = "OK" then
        .inl
          { origin_addresses := body.origin_addresses.getD []
            destination_addresses := body.destination_addresses.getD []
            rows := body.rows.getD [] }
      else
        .inr ⟨"Distance Matrix API failed with status: " ++ body.status⟩
    else
      .inr ⟨"Distance Matrix request failed: " ++ toString status⟩
  | .axiosErr status _ message =>
      .inr ⟨"Distance Matrix API error: " ++ optStatusStr status ++ " - " ++ message⟩
  | .otherErr message => .inr ⟨message⟩

/-! ## Configuration (settings.ts) and truncation (server.ts) -/

/-- `CHARACTER_LIMIT` from config/settings.ts. -/
def CHARACTER_LIMIT : Nat := 25000

/-- Result shape of `truncateIfNeeded` in server.ts. -/
structure TruncResult where
  text : String
  wasTruncated : Bool
deriving DecidableEq, Repr

/-- The `truncationMessage` template literal inside `truncateIfNeeded`
(server.ts line 201). -/
def truncationMessage (originalLen : Nat) (context : String) : String :=
  "\n\n[Response truncated: exceeded " ++ toString CHARACTER_LIMIT ++
    " character limit. Original length: " ++ toString originalLen ++
    " characters. " ++ context ++ "]"

/-- `truncateIfNeeded` from server.ts lines 195-207. -/
def truncateIfNeeded (content : String) (context : String) : TruncResult :=
  if content.length ≤ CHARACTER_LIMIT then
    ⟨content, false⟩
  else
    ⟨content.take CHARACTER_LIMIT ++ truncationMessage content.length context, true⟩

/-! ## Raw argument bags and zod schema validation (maps-models.ts)

A raw tool-argument bag is arbitrary JSON; the zod `.parse` calls in the
dispatcher are embedded as total functions into `Except`, where
`Except.error` is the thrown `ZodError` (carrying a message). -/

/-- A JSON value, the shape of a raw tool-argument bag. -/
inductive JsonValue where
  | str (s : String)
  | num (n : Int)
  | jbool (b : Bool)
  | null
  | arr (items : List JsonValue)
  | obj (fields : List (String × JsonValue))
deriving Repr

/-- Looks up a key in a JSON object field list. -/
def lookupField (fields : List (String × JsonValue)) (k : String) : Option JsonValue :=
  (fields.find? (fun kv => kv.1 == k)).map (·.2)

/-- Parsed `GeocodeInputSchema` value. -/
structure GeocodeInput where
  address : String
  response_format : ResponseFormat
deriving DecidableEq, Repr

/-- Parsed `PlaceDetailsInputSchema` value. -/
structure PlaceDetailsInput where
  place_id : Option String
  query : Option String
  response_format : ResponseFormat
deriving DecidableEq, Repr

/-- Parsed `DistanceMatrixInputSchema` value. -/
structure DistanceMatrixInput where
  origins : List String
  destinations : List String
  mode : String
  response_format : ResponseFormat
deriving DecidableEq, Repr

/-- The shared `response_format` field: `z.nativeEnum(ResponseFormat)`
with default `markdown`, applied when the key is absent. -/
def parseResponseFormat : Option JsonValue → Except String ResponseFormat
  | none => .ok .markdown
  | some (.str "markdown") => .ok .markdown
  | some (.str "json") => .ok .json
  | some _ => .error "Invalid response_format"

/-- An optional string field (`z.string().optional()`). -/
def parseOptionalString (fields : List (String × JsonValue)) (k : String) :
    Except String (Option String) :=
  match lookupField fields k with
  | none => .ok none
  | some (.str s) => .ok (some s)
  | some _ => .error ("Expected string for " ++ k)

/-- `GeocodeInputSchema.parse`: strict object with a non-empty
`address` of at most 500 characters and a defaulted `response_format`. -/
def parseGeocodeInput (v : JsonValue) : Except String GeocodeInput :=
  match v with
  | .obj fields =>
    if fields.all (fun kv => ["address", "response_format"].contains kv.1) then
      match lookupField fields "address" with
      | some (.str a) =>
        if a.length < 1 then .error "Address cannot be empty"
        else if 500 < a.length then .error "Address must not exceed 500 characters"
        else
          match parseResponseFormat (lookupField fields "response_format") with
          | .ok fmt => .ok ⟨a, fmt⟩
          | .error e => .error e
      | some _ => .error "Expected string for address"
      | none => .error "address is required"
    else .error "Unrecognized key in geocode input"
  | _ => .error "Expected object for geocode input"

/-- `PlaceDetailsInputSchema.parse`: strict object with optional string
`place_id` and `query`, a defaulted `response_format`, then the refinement
`(data) => data.place_id || data.query` (JS truthiness: at least one
present and non-empty). -/
def parsePlaceDetailsInput (v : JsonValue) : Except String PlaceDetailsInput :=
  match v with
  | .obj fields =>
    if fields.all (fun kv => ["place_id", "query", "response_format"].contains kv.1) then
      match parseOptionalString fields "place_id" with
      | .error e => .error e
      | .ok pid =>
        match parseOptionalString fields "query" with
        | .error e => .error e
        | .ok q =>
          match parseResponseFormat (lookupField fields "response_format") with
          | .error e => .error e
          | .ok fmt =>
            if jsTruthy pid || jsTruthy q then .ok ⟨pid, q, fmt⟩
            else .error "Either place_id or query must be provided"
    else .error "Unrecognized key in place details input"
  | _ => .error "Expected object for place details input"

/-- `z.array(z.string())`: every item must be a string. -/
def parseStringArray : JsonValue → Except String (List String)
  | .arr items =>
    items.mapM (fun it =>
      match it with
      | .str s => Except.ok s
      | _ => Except.error "Expected string array item")
  | _ => .error "Expected array of strings"

/-- The `mode` enum field with default `driving`. -/
def parseMode : Option JsonValue → Except String String
  | none => .ok "driving"
  | some (.str m) =>
    if ["driving", "walking", "bicycling", "transit"].contains m then .ok m
    else .error "Invalid travel mode"
  | some _ => .error "Invalid travel mode"

/-- `DistanceMatrixInputSchema.parse`: strict object with 1-10 origin and
destination strings, a defaulted `mode` and `response_format`. -/
def parseDistanceMatrixInput (v : JsonValue) : Except String DistanceMatrixInput :=
  match v with
  | .obj fields =>
    if fields.all (fun kv =>
        ["origins", "destinations", "mode", "response_format"].contains kv.1) then
      match (lookupField fields "origins").elim (Except.error "origins is required") parseStringArray with
      | .error e => .error e
      | .ok origins =>
        if origins.length < 1 then .error "At least one origin is required"
        else if 10 < origins.length then .error "Maximum 10 origins allowed to prevent overwhelming responses"
        else
          match (lookupField fields "destinations").elim (Except.error "destinations is required") parseStringArray with
          | .error e => .error e
          | .ok destinations =>
            if destinations.length < 1 then .error "At least one destination is required"
            else if 10 < destinations.length then .error "Maximum 10 destinations allowed to prevent overwhelming responses"
            else
              match parseMode (lookupField fields "mode") with
              | .error e => .error e
              | .ok mode =>
                match parseResponseFormat (lookupField fields "response_format") with
                | .error e => .error e
                | .ok fmt => .ok ⟨origins, destinations, mode, fmt⟩
    else .error "Unrecognized key in distance matrix input"
  | _ => .error "Expected object for distance matrix input"

/-! ## Rendering (server.ts success branches)

`JSON.stringify(x, null, 2)` is embedded per result shape, with the exact
field order of the TypeScript objects; `undefined` fields are omitted as
JSON.stringify does. -/

/-- JSON string escaping for the serializers. -/
def jsonEscape (s : String) : String :=
  s.data.foldl (fun acc c =>
    if c = '"' then acc ++ "\\\""
    else if c = '\\' then acc ++ "\\\\"
    else if c = '\n' then acc ++ "\\n"
    else acc.push c) ""

/-- A JSON string literal. -/
def jsonStr (s : String) : String :=
  "\"" ++ jsonEscape s ++ "\""

/-- `'='.repeat(50)`, the separator line of every error block. -/
def repeatedEquals : String :=
  String.mk (List.replicate 50 '=')

/-- JS array indexing rendered through a template literal: out-of-range
access gives `undefined`, printed as "undefined". -/
def jsIndexStr (xs : List String) (i : Nat) : String :=
  (xs.get? i).getD "undefined"

/-- One geocode result object inside `JSON.stringify(results, null, 2)`. -/
def serializeGeocodeResultObj (r : GeocodeResult) : String :=
  "  \x7b\n    \"place_id\": " ++ jsonStr r.place_id ++
    ",\n    \"address\": " ++ jsonStr r.address ++
    ",\n    \"latitude\": " ++ toString r.latitude ++
    ",\n    \"longitude\": " ++ toString r.longitude ++ "\n  \x7d"

/-- `JSON.stringify(results, null, 2)` for the geocode success branch. -/
def serializeGeocodeResults (rs : List GeocodeResult) : String :=
  match rs with
  | [] => "[]"
  | _ => "[\n" ++ String.intercalate ",\n" (rs.map serializeGeocodeResultObj) ++ "\n]"

/-- The `googleMapsLinks` sub-object; `undefined` members are omitted. -/
def serializeLinks (links : GoogleMapsLinks) : String :=
  let fields :=
    (links.mapsUri.elim [] fun u => ["    \"mapsUri\": " ++ jsonStr u]) ++
    (links.directionsUri.elim [] fun u => ["    \"directionsUri\": " ++ jsonStr u])
  match fields with
  | [] => "\x7b\x7d"
  | _ => "\x7b\n" ++ String.intercalate ",\n" fields ++ "\n  \x7d"

/-- `JSON.stringify(place, null, 2)` for the place-details success
branch. -/
def serializePlaceDetails (p : PlaceDetails) : String :=
  "\x7b\n  \"id\": " ++ jsonStr p.id ++
    ",\n  \"displayName\": " ++ (p.displayName.elim "null" jsonStr) ++
    ",\n  \"formattedAddress\": " ++ jsonStr p.formattedAddress ++
    ",\n  \"location\": \x7b\n    \"latitude\": " ++ toString p.location.latitude ++
    ",\n    \"longitude\": " ++ toString p.location.longitude ++ "\n  \x7d" ++
    ",\n  \"types\": [" ++ String.intercalate ", " (p.types.map jsonStr) ++ "]" ++
    ",\n  \"googleMapsLinks\": " ++ serializeLinks p.googleMapsLinks ++ "\n\x7d"

/-- One element of a serialized distance-matrix row. -/
def serializeElement (e : DistanceMatrixElement) : String :=
  let tv (label : String) (v : TextValue) : String :=
    "\"" ++ label ++ "\": \x7b \"text\": " ++ jsonStr v.text ++
      ", \"value\": " ++ toString v.value ++ " \x7d"
  let fields :=
    ["\"status\": " ++ jsonStr e.status] ++
    (e.distance.elim [] fun d => [tv "distance" d]) ++
    (e.duration.elim [] fun d => [tv "duration" d]) ++
    (e.duration_in_traffic.elim [] fun d => [tv "duration_in_traffic" d])
  "\x7b " ++ String.intercalate ", " fields ++ " \x7d"

/-- One serialized distance-matrix row. -/
def serializeRow (r : DistanceMatrixRow) : String :=
  "\x7b \"elements\": [" ++ String.intercalate ", " (r.elements.map serializeElement) ++ "] \x7d"

/-- `JSON.stringify(jsonResponse, null, 2)` for the distance-matrix
success branch, including the embedded `metadata` object built in
server.ts lines 392-401. -/
def serializeDistanceMatrixJson (dm : DistanceMatrixResponse) (totalElements : Nat)
    (mode : String) : String :=
  "\x7b\n  \"origin_addresses\": [" ++ String.intercalate ", " (dm.origin_addresses.map jsonStr) ++ "]" ++
    ",\n  \"destination_addresses\": [" ++ String.intercalate ", " (dm.destination_addresses.map jsonStr) ++ "]" ++
    ",\n  \"rows\": [" ++ String.intercalate ", " (dm.rows.map serializeRow) ++ "]" ++
    ",\n  \"metadata\": \x7b\n    \"total_elements\": " ++ toString totalElements ++
    ",\n    \"origins_count\": " ++ toString dm.origin_addresses.length ++
    ",\n    \"destinations_count\": " ++ toString dm.destination_addresses.length ++
    ",\n    \"mode\": " ++ jsonStr mode ++
    ",\n    \"billing_note\": \"10,000 elements/month free tier\"\n  \x7d\n\x7d"

/-- Markdown rendering of the geocode success branch (server.ts lines
251-266). -/
def geocodeMarkdown (address : String) (results : List GeocodeResult) : String :=
  let header :=
    ["# Geocoding Results", "", "Query: " ++ address,
     "Results: " ++ toString results.length, ""]
  let body :=
    (results.enum.map fun (index, item) =>
      ["## Result " ++ toString (index + 1),
       "- **Address**: " ++ item.address,
       "- **Coordinates**: " ++ toString item.latitude ++ ", " ++ toString item.longitude,
       "- **Place ID**: " ++ item.place_id,
       ""]).flatten
  String.intercalate "\n" (header ++ body)

/-- Markdown rendering of the place-details success branch (server.ts
lines 321-341); `place.displayName || 'N/A'` uses JS truthiness. -/
def placeMarkdown (place : PlaceDetails) : String :=
  let displayName :=
    match place.displayName with
    | some s => if s.isEmpty then "N/A" else s
    | none => "N/A"
  let lines :=
    ["# Place Details", "",
     "**Name**: " ++ displayName,
     "**Address**: " ++ place.formattedAddress,
     "**Location**: " ++ toString place.location.latitude ++ ", " ++ toString place.location.longitude,
     "**Place ID**: " ++ place.id] ++
    (if place.types.length > 0 then ["**Types**: " ++ String.intercalate ", " place.types] else []) ++
    (if jsTruthy place.googleMapsLinks.mapsUri then
      ["**Google Maps**: " ++ place.googleMapsLinks.mapsUri.getD ""] else []) ++
    (if jsTruthy place.googleMapsLinks.directionsUri then
      ["**Directions**: " ++ place.googleMapsLinks.directionsUri.getD ""] else [])
  String.intercalate "\n" lines

/-- Markdown rendering of one distance-matrix element block (server.ts
lines 417-432). -/
def distanceElementMarkdown (destinations : List String) (destIndex : Nat)
    (element : DistanceMatrixElement) : List String :=
  ["### → " ++ jsIndexStr destinations destIndex] ++
    (if element.status = "OK" then
      (element.distance.elim [] fun d =>
        ["- **Distance**: " ++ d.text ++ " (" ++ toString d.value ++ " meters)"]) ++
      (element.duration.elim [] fun d =>
        ["- **Duration**: " ++ d.text ++ " (" ++ toString d.value ++ " seconds)"])
    else
      ["- **Status**: " ++ element.status]) ++
    [""]

/-- Markdown rendering of the distance-matrix success branch (server.ts
lines 405-438). -/
def distanceMarkdown (mode : String) (dm : DistanceMatrixResponse)
    (totalElements : Nat) : String :=
  let header :=
    ["# Distance Matrix Results", "",
     "**Travel Mode**: " ++ mode,
     "**Total Elements**: " ++ toString totalElements ++ " (origins × destinations)",
     ""]
  let body :=
    (dm.rows.enum.map fun (originIndex, row) =>
      ["## Origin: " ++ jsIndexStr dm.origin_addresses originIndex, ""] ++
        (row.elements.enum.map fun (destIndex, element) =>
          distanceElementMarkdown dm.destination_addresses destIndex element).flatten).flatten
  let footer :=
    ["---", "**Billing Note**: 10,000 elements/month free tier (Essentials plan)"]
  String.intercalate "\n" (header ++ body ++ footer)

/-! ## Dispatcher (server.ts CallToolRequestSchema handler) -/

/-- A metadata value: JS strings, counts, booleans, a location object, or
`undefined`. -/
inductive MetaValue where
  | str (s : String)
  | num (n : Nat)
  | bool (b : Bool)
  | loc (l : Location)
  | jsUndefined
deriving DecidableEq, Repr

/-- A text content block of a tool result. -/
structure TextContent where
  text : String
deriving DecidableEq, Repr

/-- The object returned to the transport by the call-tool handler; absent
`isError` / `metadata` fields are `none`. -/
structure CallToolResult where
  content : List TextContent
  isError : Option Bool := none
  metadata : Option (List (String × MetaValue)) := none
deriving DecidableEq, Repr

/-- An upstream client operation actually invoked during a dispatch, used
to observe which calls a given invocation performs. -/
inductive UpstreamCall where
  | geocode (address : String)
  | placeDetailsById (placeId : String)
  | searchPlace (query : String)
  | distanceMatrix (origins destinations : List String) (mode : String)
deriving DecidableEq, Repr

/-- The behavior of the `GooglePlacesAPI` instance as observed by the
dispatcher: each operation either resolves to the TypeScript
`T | ErrorResponse` union or rejects with a thrown message
(`Except.error`). -/
structure ClientBehavior where
  geocodeAddress : String → Except String (Sum (List GeocodeResult) ErrorResponse)
  getPlaceDetailsById : String → Except String (Sum PlaceDetailsResponse ErrorResponse)
  searchAndGetPlaceDetails : String → Except String (Sum PlaceDetailsResponse ErrorResponse)
  calculateDistanceMatrix :
    List String → List String → String → Except String (Sum DistanceMatrixResponse ErrorResponse)

/-- An error result block: one text content with `isError: true`. -/
def mkErrorResult (text : String) : CallToolResult :=
  { content := [⟨text⟩], isError := some true }

/-- `undefined`-aware metadata value from an optional string. -/
def metaOfOptionalString : Option String → MetaValue
  | some s => .str s
  | none => .jsUndefined

/-- The `google_maps_geocode_address` case of the dispatcher (server.ts
lines 215-287), instrumented with the upstream calls it makes;
`Except.error` is an exception escaping toward the outer catch. -/
def geocodeToolHandler (client : ClientBehavior) (args : JsonValue) :
    Except String CallToolResult × List UpstreamCall :=
  match parseGeocodeInput args with
  | .error e => (.error e, [])
  | .ok validated =>
    let calls := [UpstreamCall.geocode validated.address]
    match client.geocodeAddress validated.address with
    | .error e => (.error e, calls)
    | .ok (.inr err) =>
      (.ok (mkErrorResult ("Geocoding Error\n" ++ repeatedEquals ++ "\n" ++ err.error)), calls)
    | .ok (.inl results) =>
      if results.length = 0 then
        (.ok { content := [⟨"No Results Found\n" ++ repeatedEquals ++
                "\nNo geocoding results found for: " ++ validated.address⟩] }, calls)
      else
        let responseText :=
          if validated.response_format = ResponseFormat.json then
            serializeGeocodeResults results
          else
            geocodeMarkdown validated.address results
        let t := truncateIfNeeded responseText
          "Try using response_format=\"json\" for more compact output."
        (.ok { content := [⟨t.text⟩],
               metadata := some [("total_results", .num results.length),
                                 ("query", .str validated.address),
                                 ("truncated", .bool t.wasTruncated)] }, calls)

/-- The `google_maps_get_place_details` case of the dispatcher (server.ts
lines 289-363): route on `place_id` first (JS truthiness), then `query`,
else throw. -/
def placeDetailsToolHandler (client : ClientBehavior) (args : JsonValue) :
    Except String CallToolResult × List UpstreamCall :=
  match parsePlaceDetailsInput args with
  | .error e => (.error e, [])
  | .ok validated =>
    let routed :
        Option (Except String (Sum PlaceDetailsResponse ErrorResponse) × List UpstreamCall) :=
      if jsTruthy validated.place_id then
        some (client.getPlaceDetailsById (validated.place_id.getD ""),
              [UpstreamCall.placeDetailsById (validated.place_id.getD "")])
      else if jsTruthy validated.query then
        some (client.searchAndGetPlaceDetails (validated.query.getD ""),
              [UpstreamCall.searchPlace (validated.query.getD "")])
      else none
    match routed with
    | none => (.error "Either place_id or query must be provided", [])
    | some (res, calls) =>
      match res with
      | .error e => (.error e, calls)
      | .ok (.inr err) =>
        (.ok (mkErrorResult ("Place Details Error\n" ++ repeatedEquals ++ "\n" ++ err.error)), calls)
      | .ok (.inl pr) =>
        let place := pr.place_details
        let responseText :=
          if validated.response_format = ResponseFormat.json then
            serializePlaceDetails place
          else
            placeMarkdown place
        let t := truncateIfNeeded responseText
          "Try using response_format=\"json\" for more compact output."
        (.ok { content := [⟨t.text⟩],
               metadata := some [("place_id", .str place.id),
                                 ("location", .loc place.location),
                                 ("query", metaOfOptionalString (jsOr validated.query validated.place_id)),
                                 ("truncated", .bool t.wasTruncated)] }, calls)

/-- The `google_maps_calculate_distance_matrix` case of the dispatcher
(server.ts lines 365-462). -/
def distanceMatrixToolHandler (client : ClientBehavior) (args : JsonValue) :
    Except String CallToolResult × List UpstreamCall :=
  match parseDistanceMatrixInput args with
  | .error e => (.error e, [])
  | .ok validated =>
    let calls :=
      [UpstreamCall.distanceMatrix validated.origins validated.destinations validated.mode]
    match client.calculateDistanceMatrix validated.origins validated.destinations validated.mode with
    | .error e => (.error e, calls)
    | .ok (.inr err) =>
      (.ok (mkErrorResult ("Distance Matrix Error\n" ++ repeatedEquals ++ "\n" ++ err.error)), calls)
    | .ok (.inl dm) =>
      let totalElements := dm.origin_addresses.length * dm.destination_addresses.length
      let responseText :=
        if validated.response_format = ResponseFormat.json then
          serializeDistanceMatrixJson dm totalElements validated.mode
        else
          distanceMarkdown validated.mode dm totalElements
      let t := truncateIfNeeded responseText
        "Try reducing the number of origins/destinations or use response_format=\"json\"."
      (.ok { content := [⟨t.text⟩],
             metadata := some [("total_elements", .num totalElements),
                               ("origins_count", .num dm.origin_addresses.length),
                               ("destinations_count", .num dm.destination_addresses.length),
                               ("mode", .str validated.mode),
                               ("billing_info", .str "10,000 elements/month free tier"),
                               ("truncated", .bool t.wasTruncated)] }, calls)

/-- The switch on the tool name inside the try block (server.ts lines
214-466); the default case throws `Unknown tool`. -/
def handleCallToolAux (client : ClientBehavior) (name : String) (args : JsonValue) :
    Except String CallToolResult × List UpstreamCall :=
  if name = "google_maps_geocode_address" then
    geocodeToolHandler client args
  else if name = "google_maps_get_place_details" then
    placeDetailsToolHandler client args
  else if name = "google_maps_calculate_distance_matrix" then
    distanceMatrixToolHandler client args
  else
    (.error ("Unknown tool: " ++ name), [])

/-- The full call-tool handler: the try/catch of server.ts lines 213-478
converts any exception into a generic `Error: ...` result with
`isError: true`. -/
def handleCallTool (client : ClientBehavior) (name : String) (args : JsonValue) :
    CallToolResult × List UpstreamCall :=
  match handleCallToolAux client name args with
  | (.ok r, calls) => (r, calls)
  | (.error msg, calls) => (mkErrorResult ("Error: " ++ msg), calls)

/-! ## Derived definitions used by the verification -/

/-- `totalElements` as computed by server.ts line 386:
`origin_addresses.length * destination_addresses.length`. -/
def totalElements (dm : DistanceMatrixResponse) : Nat :=
  dm.origin_addresses.length * dm.destination_addresses.length

/-- A transport-level well-formed result: exactly one (text) content
block, and `isError` either `true` or absent (absent means success). -/
def WellFormedResult (r : CallToolResult) : Prop :=
  r.content.length = 1 ∧ (r.isError = some true ∨ r.isError = none)

/-- Looks up a metadata key on a result. -/
def metaLookup (r : CallToolResult) (k : String) : Option MetaValue :=
  r.metadata.bind fun m => (m.find? (fun kv => kv.1 == k)).map (·.2)

/-- A client whose operations all resolve to upstream failures; used to
exercise dispatcher paths that must not depend on the client. -/
def stubClient : ClientBehavior :=
  { geocodeAddress := fun _ => .ok (.inr ⟨"stub"⟩)
    getPlaceDetailsById := fun _ => .ok (.inr ⟨"stub"⟩)
    searchAndGetPlaceDetails := fun _ => .ok (.inr ⟨"stub"⟩)
    calculateDistanceMatrix := fun _ _ _ => .ok (.inr ⟨"stub"⟩) }

/-- A client whose geocode operation succeeds with an empty result list,
as the upstream ZERO_RESULTS path produces. -/
def emptyGeocodeClient : ClientBehavior :=
  { stubClient with geocodeAddress := fun _ => .ok (.inl []) }

/-- A client whose geocode operation succeeds with one result. -/
def oneResultGeocodeClient : ClientBehavior :=
  { stubClient with
      geocodeAddress := fun _ => .ok (.inl [⟨"pid1", "addr1", 1, 2⟩]) }

/-- A geocoding body with status OK and four upstream results, one more
than the slice cap. -/
def geocodeBodyFour : GeocodeBody :=
  { status := "OK"
    results := some
      [⟨"p1", "a1", 1, 2⟩, ⟨"p2", "a2", 3, 4⟩, ⟨"p3", "a3", 5, 6⟩, ⟨"p4", "a4", 7, 8⟩] }

/-- A body whose length exceeds `CHARACTER_LIMIT` by one character. -/
def longBody : String :=
  String.mk (List.replicate (CHARACTER_LIMIT + 1) 'x')

/-- A place body with every optional field absent. -/
def barePlaceBody : PlaceBody :=
  { id := "pid", formattedAddress := "addr", location := ⟨1, 2⟩ }

/-- A status-OK distance body whose arrays are inconsistent: two origins,
one destination, but no rows at all. -/
def sparseDistanceBody : DistanceBody :=
  { status := "OK"
    origin_addresses := some ["A", "B"]
    destination_addresses := some ["X"]
    rows := some [] }

/-- A status-OK distance body that is a dense 2×1 grid. -/
def denseDistanceBody : DistanceBody :=
  { status := "OK"
    origin_addresses := some ["A", "B"]
    destination_addresses := some ["X"]
    rows := some
      [⟨[⟨"OK", some ⟨"1 km", 1000⟩, some ⟨"5 mins", 300⟩, none⟩]⟩,
       ⟨[⟨"OK", some ⟨"2 km", 2000⟩, some ⟨"9 mins", 540⟩, none⟩]⟩] }

/-- The geocode empty-results success response built at server.ts lines
233-242: one text block, no `isError`, no `metadata`. -/
def geocodeNoResultsResult (address : String) : CallToolResult :=
  { content := [⟨"No Results Found\n" ++ repeatedEquals ++
      "\nNo geocoding results found for: " ++ address⟩] }

/-! ## Claim theorems -/

/-- C4: for every upstream geocoding response with HTTP 200, body status
"OK" and a results array of length n, `geocodeAddress` succeeds with the
first 3 upstream results in upstream order, each mapped to
place_id/address/latitude/longitude, so the output length is min(n, 3). -/
theorem geocodeAddress_ok_maps_first_three (body : GeocodeBody)
    (rs : List GeocodeUpstreamResult)
    (hs : body.status = "OK") (hr : body.results = some rs) :
    geocodeAddress (.response 200 body) = .inl ((rs.take 3).map mapGeocodeResult) ∧
    ((rs.take 3).map mapGeocodeResult).length = min rs.length 3 := by
  constructor
  · simp [geocodeAddress, hs, hr]
  · simp [Nat.min_comm]

/-- Witness for C4: a concrete OK body with four results is sliced to the
first three. -/
theorem geocodeAddress_ok_maps_first_three_witness :
    geocodeAddress (.response 200 geocodeBodyFour) =
      .inl (((geocodeBodyFour.results.getD []).take 3).map mapGeocodeResult) ∧
    (((geocodeBodyFour.results.getD []).take 3).map mapGeocodeResult).length =
      min (geocodeBodyFour.results.getD []).length 3 :=
  geocodeAddress_ok_maps_first_three geocodeBodyFour
    (geocodeBodyFour.results.getD []) rfl rfl

/-- C5: an HTTP 200 geocoding response with body status "ZERO_RESULTS"
yields the empty sequence as a success outcome (`Sum.inl`), not a failure
outcome. -/
theorem geocodeAddress_zero_results_empty_success (body : GeocodeBody)
    (hs : body.status = "ZERO_RESULTS") :
    geocodeAddress (.response 200 body) = .inl [] := by
  simp [geocodeAddress, hs]

/-- Witness for C5: a concrete ZERO_RESULTS body. -/
theorem geocodeAddress_zero_results_empty_success_witness :
    geocodeAddress (.response 200 ⟨"ZERO_RESULTS", none⟩) = .inl [] :=
  geocodeAddress_zero_results_empty_success ⟨"ZERO_RESULTS", none⟩ rfl

/-- C9: every HTTP 200 place-details response yields a success outcome,
and absent optional fields default: `displayName` to null, `types` to the
empty list, `googleMapsLinks` to the empty record. -/
theorem getPlaceDetailsById_200_success_defaults (body : PlaceBody) :
    getPlaceDetailsById (.response 200 body) = .inl ⟨mapPlaceBody body⟩ ∧
    (body.displayName = none → (mapPlaceBody body).displayName = none) ∧
    (body.types = none → (mapPlaceBody body).types = []) ∧
    (body.googleMapsLinks = none → (mapPlaceBody body).googleMapsLinks = {}) := by
  refine ⟨by simp [getPlaceDetailsById], ?_, ?_, ?_⟩
  · intro h; simp [mapPlaceBody, h]
  · intro h; simp [mapPlaceBody, h]
  · intro h; simp [mapPlaceBody, h]

/-- Witness for C9: a concrete 200 body with every optional field absent
maps to null display name, empty types and empty links. -/
theorem getPlaceDetailsById_200_success_defaults_witness :
    getPlaceDetailsById (.response 200 barePlaceBody) = .inl ⟨mapPlaceBody barePlaceBody⟩ ∧
    (mapPlaceBody barePlaceBody).displayName = none ∧
    (mapPlaceBody barePlaceBody).types = [] ∧
    (mapPlaceBody barePlaceBody).googleMapsLinks = {} := by
  obtain ⟨h1, h2, h3, h4⟩ := getPlaceDetailsById_200_success_defaults barePlaceBody
  exact ⟨h1, h2 rfl, h3 rfl, h4 rfl⟩

/-- C2 (divergence witness): an input with both `place_id` and `query`
present and non-empty passes `PlaceDetailsInputSchema` validation, because
the refinement only requires at least one truthy identifier. -/
theorem place_details_both_set_passes_validation :
    parsePlaceDetailsInput
        (.obj [("place_id", .str "ChIJN1t_tDeuEmsRUsoyG83frY4"),
               ("query", .str "Eiffel Tower")]) =
      .ok ⟨some "ChIJN1t_tDeuEmsRUsoyG83frY4", some "Eiffel Tower", .markdown⟩ := by
  rfl

/-- C3: a body at or under `CHARACTER_LIMIT` is returned unmodified with
`wasTruncated = false`; a longer body is truncated to the first
`CHARACTER_LIMIT` characters plus the notice stating the original length
and the cap, with `wasTruncated = true`, and the returned length is at
most the cap plus the notice length. -/
theorem truncateIfNeeded_spec (content context : String) :
    (content.length ≤ CHARACTER_LIMIT →
      truncateIfNeeded content context = ⟨content, false⟩) ∧
    (CHARACTER_LIMIT < content.length →
      truncateIfNeeded content context =
        ⟨content.take CHARACTER_LIMIT ++ truncationMessage content.length context, true⟩ ∧
      (truncateIfNeeded content context).text.length ≤
        CHARACTER_LIMIT + (truncationMessage content.length context).length) := by
  constructor
  · intro h
    simp [truncateIfNeeded, h]
  · intro h
    have hn : ¬ content.length ≤ CHARACTER_LIMIT := Nat.not_le_of_lt h
    refine ⟨by simp [truncateIfNeeded, hn], ?_⟩
    simp only [truncateIfNeeded, hn, if_false]
    rw [String.length_append, String.take_eq, String.length_mk, List.length_take]
    omega

/-- Length of the long witness body. -/
theorem longBody_length : longBody.length = CHARACTER_LIMIT + 1 := by
  simp [longBody, String.length_mk]

/-- Witness for C3: a short body passes through unchanged; a body one
character over the cap is truncated with the notice appended. -/
theorem truncateIfNeeded_spec_witness :
    truncateIfNeeded "abc" "ctx" = ⟨"abc", false⟩ ∧
    truncateIfNeeded longBody "ctx" =
      ⟨longBody.take CHARACTER_LIMIT ++ truncationMessage longBody.length "ctx", true⟩ :=
  ⟨(truncateIfNeeded_spec "abc" "ctx").1 (by decide),
   ((truncateIfNeeded_spec longBody "ctx").2
     (by rw [longBody_length]; omega)).1⟩

/-- C6 counterexample: a status-OK upstream body with two origins, one
destination but an empty rows array is passed through as a success whose
row count does not match the origin count, so a successful result is not
always a dense grid. -/
theorem distance_matrix_success_not_always_dense :
    calculateDistanceMatrix (.response 200 sparseDistanceBody) =
      .inl ⟨["A", "B"], ["X"], []⟩ ∧
    (DistanceMatrixResponse.mk ["A", "B"] ["X"] []).rows.length ≠
      (DistanceMatrixResponse.mk ["A", "B"] ["X"] []).origin_addresses.length := by
  exact ⟨rfl, by decide⟩

/-- C6 amended: `calculateDistanceMatrix` passes the status-OK upstream
grid through unchanged, so whenever the upstream body is dense (row count
equals origin count and every row has one element per destination) the
success result is a dense grid, and `totalElements` of the result equals
origins count times destinations count. -/
theorem calculateDistanceMatrix_dense_passthrough (body : DistanceBody)
    (hs : body.status = "OK")
    (hrows : (body.rows.getD []).length = (body.origin_addresses.getD []).length)
    (helems : ∀ row ∈ body.rows.getD [],
      row.elements.length = (body.destination_addresses.getD []).length) :
    calculateDistanceMatrix (.response 200 body) =
      .inl ⟨body.origin_addresses.getD [], body.destination_addresses.getD [],
            body.rows.getD []⟩ ∧
    ∀ resp, calculateDistanceMatrix (.response 200 body) = .inl resp →
      resp.rows.length = resp.origin_addresses.length ∧
      (∀ row ∈ resp.rows, row.elements.length = resp.destination_addresses.length) ∧
      totalElements resp =
        resp.origin_addresses.length * resp.destination_addresses.length := by
  have hpass : calculateDistanceMatrix (.response 200 body) =
      .inl ⟨body.origin_addresses.getD [], body.destination_addresses.getD [],
            body.rows.getD []⟩ := by
    simp [calculateDistanceMatrix, hs]
  refine ⟨hpass, ?_⟩
  intro resp hresp
  rw [hpass] at hresp
  cases hresp
  exact ⟨hrows, helems, rfl⟩

/-- Witness for C6 amended: a concrete dense 2×1 body passes through as a
dense grid with 2 total elements. -/
theorem calculateDistanceMatrix_dense_passthrough_witness :
    calculateDistanceMatrix (.response 200 denseDistanceBody) =
      .inl ⟨denseDistanceBody.origin_addresses.getD [],
            denseDistanceBody.destination_addresses.getD [],
            denseDistanceBody.rows.getD []⟩ ∧
    ∀ resp, calculateDistanceMatrix (.response 200 denseDistanceBody) = .inl resp →
      resp.rows.length = resp.origin_addresses.length ∧
      (∀ row ∈ resp.rows, row.elements.length = resp.destination_addresses.length) ∧
      totalElements resp =
        resp.origin_addresses.length * resp.destination_addresses.length :=
  calculateDistanceMatrix_dense_passthrough denseDistanceBody rfl (by decide)
    (by decide)

/-- Every result the geocode case returns without throwing is
well-formed. -/
theorem geocodeToolHandler_ok_wf (client : ClientBehavior) (args : JsonValue)
    (r : CallToolResult) (h : (geocodeToolHandler client args).1 = Except.ok r) :
    WellFormedResult r := by
  unfold geocodeToolHandler at h
  dsimp only at h
  repeat' split at h
  all_goals dsimp only at h
  all_goals first
    | exact (Except.noConfusion h)
    | (injection h with h; subst h; simp [WellFormedResult, mkErrorResult])

/-- Every result the place-details case returns without throwing is
well-formed. -/
theorem placeDetailsToolHandler_ok_wf (client : ClientBehavior) (args : JsonValue)
    (r : CallToolResult) (h : (placeDetailsToolHandler client args).1 = Except.ok r) :
    WellFormedResult r := by
  unfold placeDetailsToolHandler at h
  dsimp only at h
  repeat' split at h
  all_goals dsimp only at h
  all_goals first
    | exact (Except.noConfusion h)
    | (injection h with h; subst h; simp [WellFormedResult, mkErrorResult])

/-- Every result the distance-matrix case returns without throwing is
well-formed. -/
theorem distanceMatrixToolHandler_ok_wf (client : ClientBehavior) (args : JsonValue)
    (r : CallToolResult) (h : (distanceMatrixToolHandler client args).1 = Except.ok r) :
    WellFormedResult r := by
  unfold distanceMatrixToolHandler at h
  dsimp only at h
  repeat' split at h
  all_goals dsimp only at h
  all_goals first
    | exact (Except.noConfusion h)
    | (injection h with h; subst h; simp [WellFormedResult, mkErrorResult])

/-- C1: for every client behavior (including thrown exceptions), every
tool name and every raw argument bag, the dispatcher returns a result
with exactly one text content block and an `isError` flag that is either
`true` or absent (absent marking success); no exception reaches the
transport because the handler is a total function whose catch branch
returns an error result. -/
theorem handleCallTool_always_wellformed (client : ClientBehavior)
    (name : String) (args : JsonValue) :
    WellFormedResult (handleCallTool client name args).1 := by
  unfold handleCallTool
  rcases haux : handleCallToolAux client name args with ⟨res, calls⟩
  rcases res with msg | r
  · simp [WellFormedResult, mkErrorResult]
  · dsimp only
    unfold handleCallToolAux at haux
    repeat' split at haux
    · exact geocodeToolHandler_ok_wf client args r (by rw [haux])
    · exact placeDetailsToolHandler_ok_wf client args r (by rw [haux])
    · exact distanceMatrixToolHandler_ok_wf client args r (by rw [haux])
    · simp at haux

/-- The catch wrapper never changes which upstream calls were recorded. -/
theorem handleCallTool_snd (client : ClientBehavior) (name : String) (args : JsonValue) :
    (handleCallTool client name args).2 = (handleCallToolAux client name args).2 := by
  unfold handleCallTool
  rcases h : handleCallToolAux client name args with ⟨res, calls⟩
  cases res <;> rfl

/-- C7: an invocation whose tool name is none of the three registered
names returns an error result whose message identifies the unknown name,
and records no upstream call. -/
theorem unknown_tool_immediate_error (client : ClientBehavior) (name : String)
    (args : JsonValue)
    (h1 : name ≠ "google_maps_geocode_address")
    (h2 : name ≠ "google_maps_get_place_details")
    (h3 : name ≠ "google_maps_calculate_distance_matrix") :
    handleCallTool client name args =
      (mkErrorResult ("Error: " ++ ("Unknown tool: " ++ name)), []) := by
  simp [handleCallTool, handleCallToolAux, h1, h2, h3]

/-- Witness for C7: a concrete unregistered name with an arbitrary stub
client. -/
theorem unknown_tool_immediate_error_witness :
    handleCallTool stubClient "not_a_tool" JsonValue.null =
      (mkErrorResult ("Error: " ++ ("Unknown tool: " ++ "not_a_tool")), []) :=
  unknown_tool_immediate_error stubClient "not_a_tool" JsonValue.null
    (by decide) (by decide) (by decide)

/-- C10: an input with both identifiers present and non-empty passes
schema validation, and the dispatcher performs exactly one upstream call,
`getPlaceDetailsById` with the given `place_id`; `searchAndGetPlaceDetails`
is never invoked and the `query` value does not influence the upstream
call. -/
theorem both_identifiers_route_on_place_id (client : ClientBehavior) (p q : String)
    (hp : p ≠ "") (hq : q ≠ "") :
    parsePlaceDetailsInput (.obj [("place_id", .str p), ("query", .str q)]) =
      .ok ⟨some p, some q, .markdown⟩ ∧
    (handleCallTool client "google_maps_get_place_details"
        (.obj [("place_id", .str p), ("query", .str q)])).2 =
      [UpstreamCall.placeDetailsById p] := by
  have htr : jsTruthy (some p) = true := by
    simp [jsTruthy, Bool.eq_false_iff, String.isEmpty_iff, hp]
  have hparse : parsePlaceDetailsInput (.obj [("place_id", .str p), ("query", .str q)]) =
      .ok ⟨some p, some q, .markdown⟩ := by
    simp [parsePlaceDetailsInput, lookupField, parseOptionalString, parseResponseFormat,
      htr]
  refine ⟨hparse, ?_⟩
  rw [handleCallTool_snd]
  unfold handleCallToolAux
  rw [if_neg (by decide), if_pos rfl]
  unfold placeDetailsToolHandler
  rw [hparse]
  rcases hc : client.getPlaceDetailsById p with e | s
  · simp [htr, hc]
  · rcases s with pr | err
    · simp [htr, hc]
    · simp [htr, hc]

/-- Witness for C10: both identifiers concrete and non-empty. -/
theorem both_identifiers_route_on_place_id_witness :
    parsePlaceDetailsInput
        (.obj [("place_id", .str "ChIJplaceA"), ("query", .str "Eiffel Tower")]) =
      .ok ⟨some "ChIJplaceA", some "Eiffel Tower", .markdown⟩ ∧
    (handleCallTool stubClient "google_maps_get_place_details"
        (.obj [("place_id", .str "ChIJplaceA"), ("query", .str "Eiffel Tower")])).2 =
      [UpstreamCall.placeDetailsById "ChIJplaceA"] :=
  both_identifiers_route_on_place_id stubClient "ChIJplaceA" "Eiffel Tower"
    (by decide) (by decide)

/-- C8 counterexample: a geocode invocation whose client succeeds with an
empty result list returns a success (no `isError`) that carries no
metadata map at all, contradicting the claim that every success carries a
`truncated` metadata field. -/
theorem geocode_empty_success_has_no_metadata :
    (handleCallTool emptyGeocodeClient "google_maps_geocode_address"
        (.obj [("address", .str "zzzzzznonexistentplace123")])).1.isError = none ∧
    (handleCallTool emptyGeocodeClient "google_maps_geocode_address"
        (.obj [("address", .str "zzzzzznonexistentplace123")])).1.metadata = none :=
  ⟨rfl, rfl⟩

/-- A geocode success result carries a boolean `truncated` metadata field
unless it is exactly the empty-results response: validation succeeded,
the client returned an empty success list, and the result is
`geocodeNoResultsResult` for the validated address. -/
theorem geocodeToolHandler_success_metadata (client : ClientBehavior) (args : JsonValue)
    (r : CallToolResult) (h : (geocodeToolHandler client args).1 = Except.ok r)
    (hs : r.isError = none) :
    (∃ b, metaLookup r "truncated" = some (.bool b)) ∨
    (∃ input, parseGeocodeInput args = .ok input ∧
      client.geocodeAddress input.address = .ok (.inl []) ∧
      r = geocodeNoResultsResult input.address) := by
  unfold geocodeToolHandler at h
  rcases hp : parseGeocodeInput args with e | v
  · rw [hp] at h
    exact Except.noConfusion h
  · rw [hp] at h
    dsimp only at h
    rcases hc : client.geocodeAddress v.address with m | s
    · rw [hc] at h
      exact Except.noConfusion h
    · rw [hc] at h
      rcases s with results | err
      · dsimp only at h
        by_cases hres : results.length = 0
        · rw [if_pos hres] at h
          injection h with h
          subst h
          refine Or.inr ⟨v, rfl, ?_, rfl⟩
          rw [hc, List.length_eq_zero.mp hres]
        · rw [if_neg hres] at h
          injection h with h
          subst h
          exact Or.inl ⟨_, rfl⟩
      · dsimp only at h
        injection h with h
        subst h
        simp [mkErrorResult] at hs

/-- A place-details success result carries a boolean `truncated` metadata
field. -/
theorem placeDetailsToolHandler_success_metadata (client : ClientBehavior)
    (args : JsonValue) (r : CallToolResult)
    (h : (placeDetailsToolHandler client args).1 = Except.ok r)
    (hs : r.isError = none) :
    ∃ b, metaLookup r "truncated" = some (.bool b) := by
  unfold placeDetailsToolHandler at h
  dsimp only at h
  repeat' split at h
  all_goals dsimp only at h
  all_goals first
    | exact (Except.noConfusion h)
    | (injection h with h; subst h; first
        | exact ⟨_, rfl⟩
        | (simp [mkErrorResult] at hs))

/-- A distance-matrix success result carries a boolean `truncated`
metadata field. -/
theorem distanceMatrixToolHandler_success_metadata (client : ClientBehavior)
    (args : JsonValue) (r : CallToolResult)
    (h : (distanceMatrixToolHandler client args).1 = Except.ok r)
    (hs : r.isError = none) :
    ∃ b, metaLookup r "truncated" = some (.bool b) := by
  unfold distanceMatrixToolHandler at h
  dsimp only at h
  repeat' split at h
  all_goals dsimp only at h
  all_goals first
    | exact (Except.noConfusion h)
    | (injection h with h; subst h; first
        | exact ⟨_, rfl⟩
        | (simp [mkErrorResult] at hs))

/-- C8 amended: every success outcome carries a metadata map with a
boolean `truncated` field, except exactly the geocode empty-results
response: in that one case the tool is the geocode tool, validation
succeeded, the client returned an empty success list, and the returned
result is `geocodeNoResultsResult` for the validated address (which has
no metadata map at all). -/
theorem success_metadata_truncated_amended (client : ClientBehavior)
    (name : String) (args : JsonValue)
    (hs : (handleCallTool client name args).1.isError = none) :
    (∃ b, metaLookup (handleCallTool client name args).1 "truncated" = some (.bool b)) ∨
    (name = "google_maps_geocode_address" ∧
      ∃ input, parseGeocodeInput args = .ok input ∧
        client.geocodeAddress input.address = .ok (.inl []) ∧
        (handleCallTool client name args).1 = geocodeNoResultsResult input.address) := by
  unfold handleCallTool at hs ⊢
  rcases haux : handleCallToolAux client name args with ⟨res, calls⟩
  rcases res with msg | r
  · rw [haux] at hs
    simp [mkErrorResult] at hs
  · rw [haux] at hs
    dsimp only at hs ⊢
    unfold handleCallToolAux at haux
    repeat' split at haux
    · rename_i hname
      rcases geocodeToolHandler_success_metadata client args r (by rw [haux]) hs with h | h
      · exact Or.inl h
      · exact Or.inr ⟨hname, h⟩
    · exact Or.inl
        (placeDetailsToolHandler_success_metadata client args r (by rw [haux]) hs)
    · exact Or.inl
        (distanceMatrixToolHandler_success_metadata client args r (by rw [haux]) hs)
    · simp at haux

/-- Witness for C8 amended: a concrete non-empty geocode success, whose
client never returns an empty list, carries the `truncated` metadata
flag. -/
theorem success_metadata_truncated_amended_witness :
    (∃ b, metaLookup
        (handleCallTool oneResultGeocodeClient "google_maps_geocode_address"
          (.obj [("address", .str "Tokyo Station")])).1 "truncated" =
      some (.bool b)) ∨
    ("google_maps_geocode_address" = "google_maps_geocode_address" ∧
      ∃ input, parseGeocodeInput (.obj [("address", .str "Tokyo Station")]) = .ok input ∧
        oneResultGeocodeClient.geocodeAddress input.address = .ok (.inl []) ∧
        (handleCallTool oneResultGeocodeClient "google_maps_geocode_address"
            (.obj [("address", .str "Tokyo Station")])).1 =
          geocodeNoResultsResult input.address) :=
  success_metadata_truncated_amended oneResultGeocodeClient
    "google_maps_geocode_address" (.obj [("address", .str "Tokyo Station")]) rfl

end GoogleMapsMcp
